import Mathlib

/-!
Verification of the rules engine of the llm-lae repository: the field
locator, the per-field classifiers and the occlusion-group consistency
rule of src/llm_lae/rules_extractor.py, and the clot-burden scorer
calc_cbs_score of src/llm_lae/utils.py.

Modelling conventions:
* Python strings are Lean Strings; the character-level helpers below
  reproduce Python's str.split (single-character separator), substring
  containment and str.strip on the underlying character lists, so that
  all definitions evaluate inside the kernel.
* Python floats are modelled as exact rationals.  Every constant of the
  scorer is a multiple of one half, where double arithmetic is exact, so
  the scorer model is bit-exact.  Decimal literals such as "120,5" are
  parsed to the exact rational they denote; Python parses them to the
  nearest double, which agrees on all literals of the template (a
  divergence would need more than 16 significant digits).
* Python's built-in round ties to the nearest even integer; roundHalfEven
  below reproduces that on rationals.
-/

namespace LlmLae

/-- The two error codes of rules_models.ErrorCode. -/
inductive ErrorCode where
  | MISSING_FIELD
  | INVALID_VALUE
deriving DecidableEq, Repr

/-- llm_models.MainBranchOcclusion. -/
inductive MainBranchOcclusion where
  | NONE
  | TOTAL
  | PARTIAL
deriving DecidableEq, Repr

/-- llm_models.LobeOcclusion. -/
inductive LobeOcclusion where
  | NONE
  | TOTAL
  | PARTIAL
  | SEGMENTAL
  | SUBSEGMENTAL
deriving DecidableEq, Repr

/-- llm_models.LaePresence. -/
inductive LaePresence where
  | NOT_ASSESSABLE
  | SUSPECTED
  | NO
  | YES
deriving DecidableEq, Repr

/-- llm_models.PerfusionDeficit (the three variants the rules engine uses). -/
inductive PerfusionDeficit where
  | NONE
  | LT_25
  | GE_25
deriving DecidableEq, Repr

/-- llm_models.RightHeartQuotient (the two variants the rules engine uses). -/
inductive RightHeartQuotient where
  | LT_1
  | GE_1
deriving DecidableEq, Repr

/-- Outcome of a field classifier: a typed value, the explicit
"no information" value (Python None), or an error code.  This is the
shallow embedding of the Python union types such as
"int | None | ErrorCode" in rules_models.EvaluatedValues. -/
inductive Ev (α : Type) where
  | val : α → Ev α
  | null : Ev α
  | err : ErrorCode → Ev α
deriving DecidableEq, Repr

/-- Python-style split of a character list on a single separator
character: "a:b".split(":") gives two pieces, "".split(":") gives one
empty piece. -/
def pySplit (sep : Char) : List Char → List (List Char)
  | [] => [[]]
  | c :: rest =>
    let r := pySplit sep rest
    if c = sep then [] :: r
    else
      match r with
      | [] => [[c]]
      | h :: t => (c :: h) :: t

/-- Does the pattern occur at the start of the list? -/
def listStartsWith : List Char → List Char → Bool
  | _, [] => true
  | [], _ :: _ => false
  | a :: as, b :: bs => a = b && listStartsWith as bs

/-- Substring containment, Python's "pat in line". -/
def containsSub : List Char → List Char → Bool
  | [], pat => pat.isEmpty
  | l@(_ :: rest), pat => listStartsWith l pat || containsSub rest pat

/-- The whitespace characters Python's str.strip removes (ASCII range). -/
def isSpaceChar (c : Char) : Bool :=
  c = ' ' || c = '\t' || c = '\n' || c = '\r' || c = '\x0b' || c = '\x0c'

/-- Python's str.strip on a character list. -/
def pyStrip (l : List Char) : List Char :=
  ((l.dropWhile isSpaceChar).reverse.dropWhile isSpaceChar).reverse

/-- The loop body of RulesExtractor.get_field_value: scan the lines for
the first one containing the token, return the stripped text after its
last colon. -/
def findFieldLine (tok : List Char) : List (List Char) → Option (List Char)
  | [] => none
  | line :: rest =>
    if containsSub line tok then
      some (pyStrip ((pySplit ':' line).getLastD []))
    else
      findFieldLine tok rest

/-- RulesExtractor.get_field_value: for each line of the report, if the
string "field:" occurs in the line, return line.split(":")[-1].strip();
if no line matches, return None. -/
def get_field_value (report field : String) : Option String :=
  (findFieldLine (field.data ++ [':']) (pySplit '\n' report.data)).map String.mk

/-- Digit-string to number, the core of Python's int/float parsing on
strings the regexes below have validated. -/
def digitsToNat (l : List Char) : Nat :=
  l.foldl (fun n c => 10 * n + (c.toNat - '0'.toNat)) 0

/-- Value of a decimal literal with an optional comma as decimal
separator, as an exact rational: models float(s.replace(",", ".")) on a
string matching the regex of digits, optional comma, digits. -/
def parseCommaRat (l : List Char) : ℚ :=
  match pySplit ',' l with
  | [d] => (digitsToNat d : ℚ)
  | [d1, d2] => (digitsToNat d1 : ℚ) + (digitsToNat d2 : ℚ) / (10 ^ d2.length)
  | _ => 0

/-- Python's round on a nonnegative rational: nearest integer, ties to
the even neighbour. -/
def roundHalfEven (q : ℚ) : ℤ :=
  if q - ⌊q⌋ < 1 / 2 then ⌊q⌋
  else if q - ⌊q⌋ > 1 / 2 then ⌊q⌋ + 1
  else if ⌊q⌋ % 2 = 0 then ⌊q⌋ else ⌊q⌋ + 1

/-- Longest prefix of decimal digits, with the rest of the list. -/
def takeDigits : List Char → List Char × List Char
  | [] => ([], [])
  | c :: rest =>
    if c.isDigit then
      let (d, r) := takeDigits rest
      (c :: d, r)
    else ([], c :: rest)

/-- Fullmatch of the regex of one or more digits, then optionally a comma
and one or more digits (the number pattern of the density and clot-burden
classifiers). -/
def matchesNumTok (l : List Char) : Bool :=
  let (d1, r) := takeDigits l
  !d1.isEmpty &&
    (r.isEmpty ||
      (match r with
       | ',' :: r2 =>
         let (d2, r3) := takeDigits r2
         !d2.isEmpty && r3.isEmpty
       | _ => false))

/-- Fullmatch of the density regex: the number pattern followed by a
space and the letters HU. -/
def matchesDensityPat (l : List Char) : Bool :=
  let (d1, r) := takeDigits l
  !d1.isEmpty &&
    (decide (r = ' ' :: 'H' :: 'U' :: []) ||
      (match r with
       | ',' :: r2 =>
         let (d2, r3) := takeDigits r2
         !d2.isEmpty && decide (r3 = ' ' :: 'H' :: 'U' :: [])
       | _ => false))

/-- The branch chain of extract_ecg_sync on a present value. -/
def classify_ecg_sync (iv : String) : Ev Bool :=
  if iv = "Ja" then .val true
  else if iv = "Nein" ∨ iv = "" ∨ iv = "-" then .val false
  else .err .INVALID_VALUE

/-- The branch chain of extract_density_tr_pulmonalis on a present value:
empty or dash is null; text matching the density regex is rounded with
Python round after parsing the part before the space as a comma-decimal;
anything else is invalid. -/
def classify_density (iv : String) : Ev ℤ :=
  if iv = "" ∨ iv = "-" then .null
  else if matchesDensityPat iv.data then
    .val (roundHalfEven (parseCommaRat ((pySplit ' ' iv.data).headD [])))
  else .err .INVALID_VALUE

/-- The branch chain of extract_artefact_score on a present value: one of
six fixed labels, decoded to the leading digit. -/
def classify_artefact_score (iv : String) : Ev ℤ :=
  if iv = "" ∨ iv = "-" then .null
  else if iv = "0 (keine Artefakte)" ∨ iv = "1" ∨ iv = "2" ∨ iv = "3" ∨ iv = "4"
      ∨ iv = "5 (nicht beurteilbar)" then
    .val (((iv.data.headD '0').toNat - '0'.toNat : ℕ) : ℤ)
  else .err .INVALID_VALUE

/-- The branch chain of extract_lae_presence on a present value. -/
def classify_lae_presence (iv : String) : Ev LaePresence :=
  if iv = "Nein" then .val .NO
  else if iv = "Ja" then .val .YES
  else if iv = "Verdacht auf Lungenarterienembolie" then .val .SUSPECTED
  else if iv = "Nicht beurteilbar" then .val .NOT_ASSESSABLE
  else .err .INVALID_VALUE

/-- The branch chain of extract_clot_burden_score on a present value: if
the text does not fullmatch the number pattern, or its value is outside
the closed interval from 0 to 40, it is invalid; otherwise the parsed
value. -/
def classify_clot_burden_score (iv : String) : Ev ℚ :=
  if matchesNumTok iv.data = false
      ∨ ¬(0 ≤ parseCommaRat iv.data ∧ parseCommaRat iv.data ≤ 40) then
    .err .INVALID_VALUE
  else .val (parseCommaRat iv.data)

/-- The branch chain of extract_perfusion_deficit on a present value. -/
def classify_perfusion_deficit (iv : String) : Ev PerfusionDeficit :=
  if iv = "" ∨ iv = "-" then .null
  else if iv = "Keine" then .val .NONE
  else if iv = "<25%" then .val .LT_25
  else if iv = "≥25%" ∨ iv = "=25%" then .val .GE_25
  else .err .INVALID_VALUE

/-- The branch chain of extract_rv_lv_quotient on a present value. -/
def classify_rv_lv_quotient (iv : String) : Ev RightHeartQuotient :=
  if iv = "" ∨ iv = "-" then .null
  else if iv = "<1" then .val .LT_1
  else if iv = "≥1" ∨ iv = "=1" then .val .GE_1
  else .err .INVALID_VALUE

/-- The branch chain of extract_main_branch_occlusion on a present value. -/
def classify_main_branch_occlusion (iv : String) : Ev MainBranchOcclusion :=
  if iv = "" ∨ iv = "-" then .val .NONE
  else if iv = "Total okkludiert" then .val .TOTAL
  else if iv = "Partiell okkludiert" then .val .PARTIAL
  else .err .INVALID_VALUE

/-- The branch chain of extract_lobe_occlusion on a present value. -/
def classify_lobe_occlusion (iv : String) : Ev LobeOcclusion :=
  if iv = "" ∨ iv = "-" then .val .NONE
  else if iv = "Lappenarterie total okkludiert" then .val .TOTAL
  else if iv = "Lappenarterie partiell okkludiert" then .val .PARTIAL
  else if iv = "Segmentarterie(n)" then .val .SEGMENTAL
  else if iv = "Subsegmentarterie(n)" then .val .SUBSEGMENTAL
  else .err .INVALID_VALUE

/-- The common shape of the extract methods: look the label up with
get_field_value; on absence record the empty raw string and
MISSING_FIELD, otherwise record the raw value and its classification. -/
def extractField {α : Type} (classify : String → Ev α) (report label : String) :
    String × Ev α :=
  match get_field_value report label with
  | none => ("", Ev.err .MISSING_FIELD)
  | some iv => (iv, classify iv)

/-- RulesExtractor.extract_ecg_sync. -/
def extract_ecg_sync (report : String) : String × Ev Bool :=
  extractField classify_ecg_sync report "EKG-Synchronisation"

/-- RulesExtractor.extract_density_tr_pulmonalis. -/
def extract_density_tr_pulmonalis (report : String) : String × Ev ℤ :=
  extractField classify_density report "CT-Dichte Truncus pulmonalis (Standard)"

/-- RulesExtractor.extract_artefact_score. -/
def extract_artefact_score (report : String) : String × Ev ℤ :=
  extractField classify_artefact_score report "Artefakt-Score (0-5)"

/-- RulesExtractor.extract_lae_presence. -/
def extract_lae_presence (report : String) : String × Ev LaePresence :=
  extractField classify_lae_presence report "Nachweis einer Lungenarterienembolie"

/-- RulesExtractor.extract_clot_burden_score. -/
def extract_clot_burden_score (report : String) : String × Ev ℚ :=
  extractField classify_clot_burden_score report
    "Heidelberg Clot Burden Score (CBS, PMID: 34581626)"

/-- RulesExtractor.extract_perfusion_deficit. -/
def extract_perfusion_deficit (report : String) : String × Ev PerfusionDeficit :=
  extractField classify_perfusion_deficit report "Perfusionsausfälle (DE-CT)"

/-- RulesExtractor.extract_rv_lv_quotient. -/
def extract_rv_lv_quotient (report : String) : String × Ev RightHeartQuotient :=
  extractField classify_rv_lv_quotient report "RV/LV-Quotient"

/-- RulesExtractor.extract_main_branch_occlusion. -/
def extract_main_branch_occlusion (report branch : String) :
    String × Ev MainBranchOcclusion :=
  extractField classify_main_branch_occlusion report branch

/-- RulesExtractor.extract_lobe_occlusion. -/
def extract_lobe_occlusion (report lobe : String) : String × Ev LobeOcclusion :=
  extractField classify_lobe_occlusion report lobe

/-- rules_models.InputValues: the 14 raw strings of one report. -/
structure InputValues where
  ecg_sync : String
  density_tr_pulmonalis : String
  artefact_score : String
  lae_presence : String
  lae_main_branch_right : String
  lae_upper_lobe_right : String
  lae_lower_lobe_right : String
  lae_middle_lobe_right : String
  lae_main_branch_left : String
  lae_upper_lobe_left : String
  lae_lower_lobe_left : String
  clot_burden_score : String
  perfusion_deficit : String
  rv_lv_quotient : String
deriving DecidableEq, Repr

/-- rules_models.EvaluatedValues: the 14 classified fields of one report. -/
structure EvaluatedValues where
  ecg_sync : Ev Bool
  density_tr_pulmonalis : Ev ℤ
  artefact_score : Ev ℤ
  lae_presence : Ev LaePresence
  lae_main_branch_right : Ev MainBranchOcclusion
  lae_upper_lobe_right : Ev LobeOcclusion
  lae_lower_lobe_right : Ev LobeOcclusion
  lae_middle_lobe_right : Ev LobeOcclusion
  lae_main_branch_left : Ev MainBranchOcclusion
  lae_upper_lobe_left : Ev LobeOcclusion
  lae_lower_lobe_left : Ev LobeOcclusion
  clot_burden_score : Ev ℚ
  perfusion_deficit : Ev PerfusionDeficit
  rv_lv_quotient : Ev RightHeartQuotient
deriving DecidableEq, Repr

/-- rules_models.RulesResult. -/
structure RulesResult where
  study_id : String
  input_values : InputValues
  evaluated_values : EvaluatedValues
deriving DecidableEq, Repr

/-- RulesExtractor.extract_from_report: classify the 14 fields
individually, then, if all 7 occlusion-site fields came back
MISSING_FIELD, rewrite all 7 to their NONE variant. -/
def extract_from_report (report : String) (study_id : String) : RulesResult :=
  let ecg := extract_ecg_sync report
  let density := extract_density_tr_pulmonalis report
  let artefact := extract_artefact_score report
  let presence := extract_lae_presence report
  let mbr := extract_main_branch_occlusion report "Rechts Pulmonalhauptarterie"
  let ulr := extract_lobe_occlusion report "Rechts Oberlappen"
  let llr := extract_lobe_occlusion report "Rechts Unterlappen"
  let mlr := extract_lobe_occlusion report "Mittellappen"
  let mbl := extract_main_branch_occlusion report "Links Pulmonalhauptarterie"
  let ull := extract_lobe_occlusion report "Links Oberlappen"
  let lll := extract_lobe_occlusion report "Links Unterlappen"
  let cbs := extract_clot_burden_score report
  let perf := extract_perfusion_deficit report
  let rvlv := extract_rv_lv_quotient report
  let allMissing :=
    mbr.2 = Ev.err .MISSING_FIELD ∧ ulr.2 = Ev.err .MISSING_FIELD
      ∧ llr.2 = Ev.err .MISSING_FIELD ∧ mlr.2 = Ev.err .MISSING_FIELD
      ∧ mbl.2 = Ev.err .MISSING_FIELD ∧ ull.2 = Ev.err .MISSING_FIELD
      ∧ lll.2 = Ev.err .MISSING_FIELD
  { study_id := study_id
    input_values :=
      { ecg_sync := ecg.1
        density_tr_pulmonalis := density.1
        artefact_score := artefact.1
        lae_presence := presence.1
        lae_main_branch_right := mbr.1
        lae_upper_lobe_right := ulr.1
        lae_lower_lobe_right := llr.1
        lae_middle_lobe_right := mlr.1
        lae_main_branch_left := mbl.1
        lae_upper_lobe_left := ull.1
        lae_lower_lobe_left := lll.1
        clot_burden_score := cbs.1
        perfusion_deficit := perf.1
        rv_lv_quotient := rvlv.1 }
    evaluated_values :=
      { ecg_sync := ecg.2
        density_tr_pulmonalis := density.2
        artefact_score := artefact.2
        lae_presence := presence.2
        lae_main_branch_right := if allMissing then .val .NONE else mbr.2
        lae_upper_lobe_right := if allMissing then .val .NONE else ulr.2
        lae_lower_lobe_right := if allMissing then .val .NONE else llr.2
        lae_middle_lobe_right := if allMissing then .val .NONE else mlr.2
        lae_main_branch_left := if allMissing then .val .NONE else mbl.2
        lae_upper_lobe_left := if allMissing then .val .NONE else ull.2
        lae_lower_lobe_left := if allMissing then .val .NONE else lll.2
        clot_burden_score := cbs.2
        perfusion_deficit := perf.2
        rv_lv_quotient := rvlv.2 } }

/-- The occlusion slice of llm_models.Findings: the seven fields
calc_cbs_score reads.  The remaining fields of the source structure
(ecg_sync, density, artefact score, presence, reported score, perfusion,
quotient and the boolean findings) are never read by the scorer and are
not part of the embedding. -/
structure Findings where
  lae_main_branch_right : MainBranchOcclusion
  lae_upper_lobe_right : LobeOcclusion
  lae_lower_lobe_right : LobeOcclusion
  lae_middle_lobe_right : LobeOcclusion
  lae_main_branch_left : MainBranchOcclusion
  lae_upper_lobe_left : LobeOcclusion
  lae_lower_lobe_left : LobeOcclusion
deriving DecidableEq, Repr

/-- Points of the left lung in utils.calc_cbs_score: main branch total
20, partial 10, otherwise the two left lobes are scored. -/
def leftLungScore (f : Findings) : ℚ :=
  if f.lae_main_branch_left = MainBranchOcclusion.TOTAL then 20
  else if f.lae_main_branch_left = MainBranchOcclusion.PARTIAL then 10
  else
    (if f.lae_upper_lobe_left = LobeOcclusion.TOTAL then 10
     else if f.lae_upper_lobe_left = LobeOcclusion.PARTIAL then 5
     else if f.lae_upper_lobe_left = LobeOcclusion.SEGMENTAL then 5 / 2
     else if f.lae_upper_lobe_left = LobeOcclusion.SUBSEGMENTAL then 1
     else 0)
    + (if f.lae_lower_lobe_left = LobeOcclusion.TOTAL then 10
       else if f.lae_lower_lobe_left = LobeOcclusion.PARTIAL then 5
       else if f.lae_lower_lobe_left = LobeOcclusion.SEGMENTAL then 5 / 2
       else if f.lae_lower_lobe_left = LobeOcclusion.SUBSEGMENTAL then 1
       else 0)

/-- Points of the right lung in utils.calc_cbs_score: main branch total
20, partial 10, otherwise the three right lobes are scored. -/
def rightLungScore (f : Findings) : ℚ :=
  if f.lae_main_branch_right = MainBranchOcclusion.TOTAL then 20
  else if f.lae_main_branch_right = MainBranchOcclusion.PARTIAL then 10
  else
    (if f.lae_upper_lobe_right = LobeOcclusion.TOTAL then 6
     else if f.lae_upper_lobe_right = LobeOcclusion.PARTIAL then 3
     else if f.lae_upper_lobe_right = LobeOcclusion.SEGMENTAL then 3 / 2
     else if f.lae_upper_lobe_right = LobeOcclusion.SUBSEGMENTAL then 1
     else 0)
    + (if f.lae_middle_lobe_right = LobeOcclusion.TOTAL then 4
       else if f.lae_middle_lobe_right = LobeOcclusion.PARTIAL then 2
       else if f.lae_middle_lobe_right = LobeOcclusion.SEGMENTAL then 1
       else if f.lae_middle_lobe_right = LobeOcclusion.SUBSEGMENTAL then 1 / 2
       else 0)
    + (if f.lae_lower_lobe_right = LobeOcclusion.TOTAL then 10
       else if f.lae_lower_lobe_right = LobeOcclusion.PARTIAL then 5
       else if f.lae_lower_lobe_right = LobeOcclusion.SEGMENTAL then 5 / 2
       else if f.lae_lower_lobe_right = LobeOcclusion.SUBSEGMENTAL then 1
       else 0)

/-- utils.calc_cbs_score: the source accumulates the points of the left
lung block and then of the right lung block into one running float; that
is rendered as the sum of the two per-side scores. -/
def calc_cbs_score (f : Findings) : ℚ :=
  leftLungScore f + rightLungScore f

theorem leftLungScore_bounds (f : Findings) :
    0 ≤ leftLungScore f ∧ leftLungScore f ≤ 20 := by
  rcases f with ⟨mbr, ulr, llr, mlr, mbl, ull, lll⟩
  cases mbl <;> cases ull <;> cases lll <;> simp +decide [leftLungScore] <;> norm_num

theorem rightLungScore_bounds (f : Findings) :
    0 ≤ rightLungScore f ∧ rightLungScore f ≤ 20 := by
  rcases f with ⟨mbr, ulr, llr, mlr, mbl, ull, lll⟩
  cases mbr <;> cases ulr <;> cases mlr <;> cases llr <;>
    simp +decide [rightLungScore] <;> norm_num

/-- C1: for every assignment of the 7 occlusion fields, calc_cbs_score
lies in the closed interval from 0 to 40; left main branch TOTAL
together with right main branch TOTAL gives exactly 40; all seven
fields NONE give exactly 0. -/
theorem calc_cbs_score_range_and_extremes :
    (∀ f : Findings, 0 ≤ calc_cbs_score f ∧ calc_cbs_score f ≤ 40)
    ∧ (∀ f : Findings,
        f.lae_main_branch_left = MainBranchOcclusion.TOTAL →
        f.lae_main_branch_right = MainBranchOcclusion.TOTAL →
        calc_cbs_score f = 40)
    ∧ calc_cbs_score ⟨.NONE, .NONE, .NONE, .NONE, .NONE, .NONE, .NONE⟩ = 0 := by
  refine ⟨fun f => ?_, fun f hl hr => ?_,
    by simp +decide [calc_cbs_score, leftLungScore, rightLungScore]⟩
  · have h1 := leftLungScore_bounds f
    have h2 := rightLungScore_bounds f
    unfold calc_cbs_score
    constructor <;> linarith [h1.1, h1.2, h2.1, h2.2]
  · simp +decide [calc_cbs_score, leftLungScore, rightLungScore, hl, hr]
    norm_num

/-- Witness for C1 at a concrete input: both main branches totally
occluded. -/
theorem calc_cbs_score_range_and_extremes_w :
    (0 : ℚ) ≤ calc_cbs_score ⟨.TOTAL, .NONE, .NONE, .NONE, .TOTAL, .NONE, .NONE⟩
    ∧ calc_cbs_score ⟨.TOTAL, .NONE, .NONE, .NONE, .TOTAL, .NONE, .NONE⟩ = 40 :=
  ⟨(calc_cbs_score_range_and_extremes.1 _).1,
   calc_cbs_score_range_and_extremes.2.1 _ rfl rfl⟩

/-- C6: a side whose main branch is TOTAL contributes exactly 20 points
and one whose main branch is PARTIAL exactly 10; in either case that
side's lobe fields do not affect the score; lobe points are summed only
when the side's main branch is NONE, and the concrete assignment of the
spec (left main NONE, left upper lobe SUBSEGMENTAL, left lower lobe
PARTIAL, right main PARTIAL) scores 16 whatever the right lobes hold. -/
theorem calc_cbs_score_side_structure :
    (∀ f : Findings, f.lae_main_branch_left = MainBranchOcclusion.TOTAL →
        calc_cbs_score f = 20 + rightLungScore f)
    ∧ (∀ f : Findings, f.lae_main_branch_left = MainBranchOcclusion.PARTIAL →
        calc_cbs_score f = 10 + rightLungScore f)
    ∧ (∀ f : Findings, f.lae_main_branch_right = MainBranchOcclusion.TOTAL →
        calc_cbs_score f = leftLungScore f + 20)
    ∧ (∀ f : Findings, f.lae_main_branch_right = MainBranchOcclusion.PARTIAL →
        calc_cbs_score f = leftLungScore f + 10)
    ∧ (∀ (f : Findings) (u l : LobeOcclusion),
        f.lae_main_branch_left ≠ MainBranchOcclusion.NONE →
        calc_cbs_score { f with lae_upper_lobe_left := u, lae_lower_lobe_left := l }
          = calc_cbs_score f)
    ∧ (∀ (f : Findings) (u m l : LobeOcclusion),
        f.lae_main_branch_right ≠ MainBranchOcclusion.NONE →
        calc_cbs_score { f with
          lae_upper_lobe_right := u
          lae_middle_lobe_right := m
          lae_lower_lobe_right := l } = calc_cbs_score f)
    ∧ (∀ u m l : LobeOcclusion,
        calc_cbs_score ⟨.PARTIAL, u, l, m, .NONE, .SUBSEGMENTAL, .PARTIAL⟩ = 16) := by
  refine ⟨fun f hl => ?_, fun f hl => ?_, fun f hr => ?_, fun f hr => ?_,
    fun f u l hl => ?_, fun f u m l hr => ?_, fun u m l => ?_⟩
  · simp +decide [calc_cbs_score, leftLungScore, hl]
  · simp +decide [calc_cbs_score, leftLungScore, hl]
  · simp +decide [calc_cbs_score, rightLungScore, hr]
  · simp +decide [calc_cbs_score, rightLungScore, hr]
  · rcases f with ⟨mbr, ulr, llr, mlr, mbl, ull, lll⟩
    cases mbl <;> simp_all +decide [calc_cbs_score, leftLungScore, rightLungScore]
  · rcases f with ⟨mbr, ulr, llr, mlr, mbl, ull, lll⟩
    cases mbr <;> simp_all +decide [calc_cbs_score, rightLungScore, leftLungScore]
  · simp +decide [calc_cbs_score, leftLungScore, rightLungScore]
    norm_num

/-- Witness for C6 at concrete inputs: the spec's 16-point assignment
with all right lobes totally occluded, and a left-main-total case. -/
theorem calc_cbs_score_side_structure_w :
    calc_cbs_score ⟨.PARTIAL, .TOTAL, .TOTAL, .TOTAL, .NONE, .SUBSEGMENTAL, .PARTIAL⟩ = 16
    ∧ calc_cbs_score ⟨.NONE, .NONE, .NONE, .NONE, .TOTAL, .NONE, .NONE⟩
        = 20 + rightLungScore ⟨.NONE, .NONE, .NONE, .NONE, .TOTAL, .NONE, .NONE⟩ :=
  ⟨calc_cbs_score_side_structure.2.2.2.2.2.2 .TOTAL .TOTAL .TOTAL,
   calc_cbs_score_side_structure.1 _ rfl⟩

/-- C2: after the 7 occlusion-site fields are classified individually,
extract_from_report rewrites all 7 to their NONE variant exactly when
all 7 came back MISSING_FIELD; otherwise every one of the 7 keeps its
individual classification (so absent members of a partially present
group stay MISSING_FIELD). -/
theorem occlusion_group_consistency (report study_id : String) :
    (((extract_main_branch_occlusion report "Rechts Pulmonalhauptarterie").2
          = Ev.err .MISSING_FIELD
        ∧ (extract_lobe_occlusion report "Rechts Oberlappen").2 = Ev.err .MISSING_FIELD
        ∧ (extract_lobe_occlusion report "Rechts Unterlappen").2 = Ev.err .MISSING_FIELD
        ∧ (extract_lobe_occlusion report "Mittellappen").2 = Ev.err .MISSING_FIELD
        ∧ (extract_main_branch_occlusion report "Links Pulmonalhauptarterie").2
            = Ev.err .MISSING_FIELD
        ∧ (extract_lobe_occlusion report "Links Oberlappen").2 = Ev.err .MISSING_FIELD
        ∧ (extract_lobe_occlusion report "Links Unterlappen").2 = Ev.err .MISSING_FIELD) →
      ((extract_from_report report study_id).evaluated_values.lae_main_branch_right
          = Ev.val MainBranchOcclusion.NONE
        ∧ (extract_from_report report study_id).evaluated_values.lae_upper_lobe_right
            = Ev.val LobeOcclusion.NONE
        ∧ (extract_from_report report study_id).evaluated_values.lae_lower_lobe_right
            = Ev.val LobeOcclusion.NONE
        ∧ (extract_from_report report study_id).evaluated_values.lae_middle_lobe_right
            = Ev.val LobeOcclusion.NONE
        ∧ (extract_from_report report study_id).evaluated_values.lae_main_branch_left
            = Ev.val MainBranchOcclusion.NONE
        ∧ (extract_from_report report study_id).evaluated_values.lae_upper_lobe_left
            = Ev.val LobeOcclusion.NONE
        ∧ (extract_from_report report study_id).evaluated_values.lae_lower_lobe_left
            = Ev.val LobeOcclusion.NONE))
    ∧ (¬((extract_main_branch_occlusion report "Rechts Pulmonalhauptarterie").2
          = Ev.err .MISSING_FIELD
        ∧ (extract_lobe_occlusion report "Rechts Oberlappen").2 = Ev.err .MISSING_FIELD
        ∧ (extract_lobe_occlusion report "Rechts Unterlappen").2 = Ev.err .MISSING_FIELD
        ∧ (extract_lobe_occlusion report "Mittellappen").2 = Ev.err .MISSING_FIELD
        ∧ (extract_main_branch_occlusion report "Links Pulmonalhauptarterie").2
            = Ev.err .MISSING_FIELD
        ∧ (extract_lobe_occlusion report "Links Oberlappen").2 = Ev.err .MISSING_FIELD
        ∧ (extract_lobe_occlusion report "Links Unterlappen").2 = Ev.err .MISSING_FIELD) →
      ((extract_from_report report study_id).evaluated_values.lae_main_branch_right
          = (extract_main_branch_occlusion report "Rechts Pulmonalhauptarterie").2
        ∧ (extract_from_report report study_id).evaluated_values.lae_upper_lobe_right
            = (extract_lobe_occlusion report "Rechts Oberlappen").2
        ∧ (extract_from_report report study_id).evaluated_values.lae_lower_lobe_right
            = (extract_lobe_occlusion report "Rechts Unterlappen").2
        ∧ (extract_from_report report study_id).evaluated_values.lae_middle_lobe_right
            = (extract_lobe_occlusion report "Mittellappen").2
        ∧ (extract_from_report report study_id).evaluated_values.lae_main_branch_left
            = (extract_main_branch_occlusion report "Links Pulmonalhauptarterie").2
        ∧ (extract_from_report report study_id).evaluated_values.lae_upper_lobe_left
            = (extract_lobe_occlusion report "Links Oberlappen").2
        ∧ (extract_from_report report study_id).evaluated_values.lae_lower_lobe_left
            = (extract_lobe_occlusion report "Links Unterlappen").2)) := by
  constructor
  · intro h
    simp only [extract_from_report]
    rw [if_pos h, if_pos h, if_pos h, if_pos h, if_pos h, if_pos h, if_pos h]
    exact ⟨rfl, rfl, rfl, rfl, rfl, rfl, rfl⟩
  · intro h
    simp only [extract_from_report]
    rw [if_neg h, if_neg h, if_neg h, if_neg h, if_neg h, if_neg h, if_neg h]
    exact ⟨rfl, rfl, rfl, rfl, rfl, rfl, rfl⟩

/-- A report of the template where 3 of the 7 occlusion labels are
present and 4 are absent. -/
def reportPartialOcclusion : String :=
  "Rechts Pulmonalhauptarterie: Total okkludiert\nRechts Oberlappen: -\nMittellappen: Segmentarterie(n)"

/-- Witness for C2: on a report carrying 3 of the 7 occlusion labels the
4 absent ones stay MISSING_FIELD and the present ones keep their
classification, while on the empty report all 7 become NONE. -/
theorem occlusion_group_consistency_w :
    (extract_from_report reportPartialOcclusion "s1").evaluated_values.lae_main_branch_right
        = Ev.val MainBranchOcclusion.TOTAL
    ∧ (extract_from_report reportPartialOcclusion "s1").evaluated_values.lae_lower_lobe_right
        = Ev.err .MISSING_FIELD
    ∧ (extract_from_report reportPartialOcclusion "s1").evaluated_values.lae_main_branch_left
        = Ev.err .MISSING_FIELD
    ∧ (extract_from_report reportPartialOcclusion "s1").evaluated_values.lae_upper_lobe_left
        = Ev.err .MISSING_FIELD
    ∧ (extract_from_report reportPartialOcclusion "s1").evaluated_values.lae_lower_lobe_left
        = Ev.err .MISSING_FIELD
    ∧ (extract_from_report "" "s2").evaluated_values.lae_main_branch_left
        = Ev.val MainBranchOcclusion.NONE := by
  have hB := (occlusion_group_consistency reportPartialOcclusion "s1").2 (by decide)
  have hA := (occlusion_group_consistency "" "s2").1 (by decide)
  refine ⟨hB.1.trans (by decide), hB.2.2.1.trans (by decide),
    hB.2.2.2.2.1.trans (by decide), hB.2.2.2.2.2.1.trans (by decide),
    hB.2.2.2.2.2.2.trans (by decide), hA.2.2.2.2.1⟩

/-- The four admissible outcomes of a classifier. -/
def evTotal {α : Type} (e : Ev α) : Prop :=
  (∃ v, e = Ev.val v) ∨ e = Ev.null ∨ e = Ev.err .MISSING_FIELD
    ∨ e = Ev.err .INVALID_VALUE

theorem evTotal_cases {α : Type} (e : Ev α) : evTotal e := by
  rcases e with v | _ | c
  · exact Or.inl ⟨v, rfl⟩
  · exact Or.inr (Or.inl rfl)
  · cases c
    · exact Or.inr (Or.inr (Or.inl rfl))
    · exact Or.inr (Or.inr (Or.inr rfl))

/-- C7: every classifier is total.  For every report each of the 14
evaluated fields is exactly one of a typed value, null, MISSING_FIELD or
INVALID_VALUE (the Ev embedding of the per-field Python union types);
the four forms are mutually exclusive.  Totality of the Lean functions
models that no exception escapes a classifier. -/
theorem classifier_totality :
    (∀ report study_id : String,
      evTotal (extract_from_report report study_id).evaluated_values.ecg_sync
      ∧ evTotal (extract_from_report report study_id).evaluated_values.density_tr_pulmonalis
      ∧ evTotal (extract_from_report report study_id).evaluated_values.artefact_score
      ∧ evTotal (extract_from_report report study_id).evaluated_values.lae_presence
      ∧ evTotal (extract_from_report report study_id).evaluated_values.lae_main_branch_right
      ∧ evTotal (extract_from_report report study_id).evaluated_values.lae_upper_lobe_right
      ∧ evTotal (extract_from_report report study_id).evaluated_values.lae_lower_lobe_right
      ∧ evTotal (extract_from_report report study_id).evaluated_values.lae_middle_lobe_right
      ∧ evTotal (extract_from_report report study_id).evaluated_values.lae_main_branch_left
      ∧ evTotal (extract_from_report report study_id).evaluated_values.lae_upper_lobe_left
      ∧ evTotal (extract_from_report report study_id).evaluated_values.lae_lower_lobe_left
      ∧ evTotal (extract_from_report report study_id).evaluated_values.clot_burden_score
      ∧ evTotal (extract_from_report report study_id).evaluated_values.perfusion_deficit
      ∧ evTotal (extract_from_report report study_id).evaluated_values.rv_lv_quotient)
    ∧ (∀ (α : Type) (v : α), Ev.val v ≠ Ev.null)
    ∧ (∀ (α : Type) (v : α) (c : ErrorCode), Ev.val v ≠ Ev.err c)
    ∧ (∀ (α : Type) (c : ErrorCode), (Ev.null : Ev α) ≠ Ev.err c)
    ∧ (ErrorCode.MISSING_FIELD ≠ ErrorCode.INVALID_VALUE) := by
  refine ⟨fun report study_id => ?_, ?_, ?_, ?_, ?_⟩
  · exact ⟨evTotal_cases _, evTotal_cases _, evTotal_cases _, evTotal_cases _,
      evTotal_cases _, evTotal_cases _, evTotal_cases _, evTotal_cases _,
      evTotal_cases _, evTotal_cases _, evTotal_cases _, evTotal_cases _,
      evTotal_cases _, evTotal_cases _⟩
  · intro α v h
    cases h
  · intro α v c h
    cases h
  · intro α c h
    cases h
  · decide

/-- generic_models.Report: one input row. -/
structure Report where
  study_id : String
  report_body : String

/-- RulesExtractor.extract_from_reports: the batch loop, one result per
report in order. -/
def extract_from_reports (reports : List Report) : List RulesResult :=
  reports.map (fun r => extract_from_report r.report_body r.study_id)

/-- C8: extraction is deterministic in the report text.  The raw and
evaluated records do not depend on the study id, re-running extraction
on the same body gives the same records, and in a batch each report's
result is exactly the result of running extract_from_report on that
report alone, independent of the reports around it. -/
theorem extraction_deterministic :
    (∀ report sid sid' : String,
      (extract_from_report report sid).input_values
          = (extract_from_report report sid').input_values
      ∧ (extract_from_report report sid).evaluated_values
          = (extract_from_report report sid').evaluated_values)
    ∧ (∀ (pre post : List Report) (r : Report),
        extract_from_reports (pre ++ r :: post)
          = extract_from_reports pre
              ++ extract_from_report r.report_body r.study_id :: extract_from_reports post) := by
  refine ⟨fun report sid sid' => ⟨rfl, rfl⟩, fun pre post r => ?_⟩
  simp [extract_from_reports]

theorem findFieldLine_eq_find (tok : List Char) (ls : List (List Char)) :
    findFieldLine tok ls
      = (ls.find? (fun l => containsSub l tok)).map
          (fun l => pyStrip ((pySplit ':' l).getLastD [])) := by
  induction ls with
  | nil => rfl
  | cons a as ih =>
    by_cases h : containsSub a tok = true
    · simp [findFieldLine, h, List.find?_cons_of_pos]
    · simp only [Bool.not_eq_true] at h
      simp [findFieldLine, h, List.find?_cons_of_neg, ih]

/-- C3 counterexample: the locator matches the token as a plain
substring, so the label "Oberlappen" does match inside the line of the
different, longer label "Links Oberlappen" and returns its value
instead of signalling absence. -/
theorem get_field_value_substring_collision :
    get_field_value "Links Oberlappen: x" "Oberlappen" = some "x"
    ∧ "Oberlappen" ≠ "Links Oberlappen" :=
  ⟨by decide, by decide⟩

/-- C3 amended: get_field_value returns the stripped substring after
the last colon of the first line that contains the string of the label
followed by a colon as a substring (which rules out matching a longer
label that merely extends the label to the right, but a label occurring
at the end of a different longer label does match inside it); if no
line contains that string it returns none. -/
theorem get_field_value_contract (report field : String) :
    get_field_value report field
      = ((pySplit '\n' report.data).find?
            (fun line => containsSub line (field.data ++ [':']))).map
          (fun line => String.mk (pyStrip ((pySplit ':' line).getLastD []))) := by
  unfold get_field_value
  rw [findFieldLine_eq_find]
  cases (pySplit '\n' report.data).find? (fun line => containsSub line (field.data ++ [':'])) <;>
    rfl

theorem pySplit_of_not_mem (c : Char) (l : List Char) (h : c ∉ l) :
    pySplit c l = [l] := by
  induction l with
  | nil => rfl
  | cons a as ih =>
    rw [List.mem_cons, not_or] at h
    simp [pySplit, ih h.2, Ne.symm h.1]

theorem pySplit_append_cons (c : Char) (xs ys : List Char) (hx : c ∉ xs) :
    pySplit c (xs ++ c :: ys) = xs :: pySplit c ys := by
  induction xs with
  | nil => simp [pySplit]
  | cons a as ih =>
    rw [List.mem_cons, not_or] at hx
    rw [List.cons_append]
    simp only [pySplit, ih hx.2]
    simp [Ne.symm hx.1]

theorem pyStrip_cons_space (l : List Char) : pyStrip (' ' :: l) = pyStrip l := by
  simp [pyStrip, List.dropWhile, isSpaceChar]

theorem pyStrip_append_space (l : List Char) : pyStrip (l ++ [' ']) = pyStrip l := by
  unfold pyStrip
  rw [List.dropWhile_append]
  by_cases h : (l.dropWhile isSpaceChar).isEmpty
  · have h' := List.isEmpty_iff.mp h
    simp [h, h', List.dropWhile, isSpaceChar]
  · simp only [h, if_false, Bool.false_eq_true]
    rw [List.reverse_append]
    simp [List.dropWhile, isSpaceChar]

theorem listStartsWith_append_self (pat rest : List Char) :
    listStartsWith (pat ++ rest) pat = true := by
  induction pat with
  | nil => cases rest <;> rfl
  | cons a as ih => simp [listStartsWith, ih]

theorem containsSub_append_self (pat rest : List Char) :
    containsSub (pat ++ rest) pat = true := by
  cases pat with
  | nil => cases rest <;> simp [containsSub, listStartsWith]
  | cons a as =>
    have h := listStartsWith_append_self (a :: as) rest
    rw [List.cons_append] at h
    simp [containsSub, h]

/-- C10: the locator strips surrounding whitespace from the value text
before it is recorded and classified: a line of the label, a colon, a
space, the value and a trailing space yields the same raw string and
the same classification as the line without the surrounding spaces, for
every value and label free of colons and line breaks. -/
theorem get_field_value_strips (label v : String)
    (hl : ':' ∉ label.data) (hl2 : '\n' ∉ label.data)
    (hv : ':' ∉ v.data) (hv2 : '\n' ∉ v.data) :
    get_field_value (label ++ ": " ++ v ++ " ") label = some (String.mk (pyStrip v.data))
    ∧ get_field_value (label ++ ":" ++ v) label = some (String.mk (pyStrip v.data))
    ∧ ∀ (α : Type) (classify : String → Ev α),
        extractField classify (label ++ ": " ++ v ++ " ") label
          = extractField classify (label ++ ":" ++ v) label := by
  have hd1 : (label ++ ": " ++ v ++ " ").data
      = label.data ++ ':' :: (' ' :: (v.data ++ [' '])) := by
    simp [String.data_append]
  have hd2 : (label ++ ":" ++ v).data = label.data ++ ':' :: v.data := by
    simp [String.data_append]
  have key : ∀ rest : List Char, ':' ∉ rest → '\n' ∉ rest →
      get_field_value (String.mk (label.data ++ ':' :: rest)) label
        = some (String.mk (pyStrip rest)) := by
    intro rest hr hr2
    unfold get_field_value
    have hnl : '\n' ∉ label.data ++ ':' :: rest := by
      simp only [List.mem_append, List.mem_cons]
      push_neg
      exact ⟨hl2, by decide, hr2⟩
    rw [show (String.mk (label.data ++ ':' :: rest)).data = label.data ++ ':' :: rest from rfl,
      pySplit_of_not_mem _ _ hnl]
    have hc : containsSub (label.data ++ ':' :: rest) (label.data ++ [':']) = true := by
      have : label.data ++ ':' :: rest = (label.data ++ [':']) ++ rest := by simp
      rw [this]
      exact containsSub_append_self _ _
    simp only [findFieldLine, hc, if_true]
    rw [pySplit_append_cons _ _ _ hl, pySplit_of_not_mem _ _ hr]
    simp
  have e1 : get_field_value (label ++ ": " ++ v ++ " ") label
      = some (String.mk (pyStrip v.data)) := by
    have hr : ':' ∉ ' ' :: (v.data ++ [' ']) := by
      simp only [List.mem_cons, List.mem_append]
      push_neg
      exact ⟨by decide, hv, by decide⟩
    have hr2 : '\n' ∉ ' ' :: (v.data ++ [' ']) := by
      simp only [List.mem_cons, List.mem_append]
      push_neg
      exact ⟨by decide, hv2, by decide⟩
    have := key (' ' :: (v.data ++ [' '])) hr hr2
    rw [show String.mk (label.data ++ ':' :: (' ' :: (v.data ++ [' '])))
        = label ++ ": " ++ v ++ " " from String.ext hd1.symm] at this
    rw [this, pyStrip_cons_space, pyStrip_append_space]
  have e2 : get_field_value (label ++ ":" ++ v) label
      = some (String.mk (pyStrip v.data)) := by
    have := key v.data hv hv2
    rw [show String.mk (label.data ++ ':' :: v.data)
        = label ++ ":" ++ v from String.ext hd2.symm] at this
    exact this
  refine ⟨e1, e2, fun α classify => ?_⟩
  unfold extractField
  rw [e1, e2]

/-- Witness for C10 at a concrete label and value of the template. -/
theorem get_field_value_strips_w :
    get_field_value ("RV/LV-Quotient" ++ ": " ++ "<1" ++ " ") "RV/LV-Quotient"
        = some (String.mk (pyStrip "<1".data))
    ∧ extractField classify_rv_lv_quotient ("RV/LV-Quotient" ++ ": " ++ "<1" ++ " ")
          "RV/LV-Quotient"
        = extractField classify_rv_lv_quotient ("RV/LV-Quotient" ++ ":" ++ "<1")
          "RV/LV-Quotient" := by
  have h := get_field_value_strips "RV/LV-Quotient" "<1"
    (by decide) (by decide) (by decide) (by decide)
  exact ⟨h.1, h.2.2 _ classify_rv_lv_quotient⟩

theorem extractField_some {α : Type} (classify : String → Ev α) (report label s : String)
    (h : get_field_value report label = some s) :
    extractField classify report label = (s, classify s) := by
  unfold extractField
  rw [h]

theorem extractField_none {α : Type} (classify : String → Ev α) (report label : String)
    (h : get_field_value report label = none) :
    extractField classify report label = ("", Ev.err .MISSING_FIELD) := by
  unfold extractField
  rw [h]

theorem parseCommaRat_no_comma (l : List Char) (h : ',' ∉ l) :
    parseCommaRat l = (digitsToNat l : ℚ) := by
  unfold parseCommaRat
  rw [pySplit_of_not_mem _ _ h]

theorem roundHalfEven_of_intCast (n : ℤ) : roundHalfEven (n : ℚ) = n := by
  unfold roundHalfEven
  rw [Int.floor_intCast, sub_self]
  norm_num

theorem roundHalfEven_241_half : roundHalfEven (241 / 2 : ℚ) = 120 := by
  have hf : ⌊(241 / 2 : ℚ)⌋ = 120 := by
    rw [Int.floor_eq_iff]
    constructor <;> norm_num
  unfold roundHalfEven
  rw [hf]
  norm_num

/-- C4 counterexample: on the raw value "120,5 HU" the density
classifier returns 120, not 121: Python's round ties to even, not up. -/
theorem density_round_ties_to_even :
    (extract_density_tr_pulmonalis
        "CT-Dichte Truncus pulmonalis (Standard): 120,5 HU").2 = Ev.val 120
    ∧ (extract_density_tr_pulmonalis
        "CT-Dichte Truncus pulmonalis (Standard): 120,5 HU").2 ≠ Ev.val 121 := by
  have hget : get_field_value "CT-Dichte Truncus pulmonalis (Standard): 120,5 HU"
      "CT-Dichte Truncus pulmonalis (Standard)" = some "120,5 HU" := by decide
  have hval : (extract_density_tr_pulmonalis
      "CT-Dichte Truncus pulmonalis (Standard): 120,5 HU").2 = Ev.val 120 := by
    unfold extract_density_tr_pulmonalis
    rw [extractField_some _ _ _ _ hget]
    show classify_density "120,5 HU" = Ev.val 120
    unfold classify_density
    rw [if_neg (by decide), if_pos (by decide)]
    have h1 : (pySplit ' ' "120,5 HU".data).headD [] = ['1', '2', '0', ',', '5'] := by decide
    have h2 : pySplit ',' ['1', '2', '0', ',', '5'] = [['1', '2', '0'], ['5']] := by decide
    have h3 : parseCommaRat ['1', '2', '0', ',', '5'] = (241 / 2 : ℚ) := by
      unfold parseCommaRat
      rw [h2]
      show (digitsToNat ['1', '2', '0'] : ℚ)
          + (digitsToNat ['5'] : ℚ) / 10 ^ (['5'] : List Char).length = 241 / 2
      have e1 : digitsToNat ['1', '2', '0'] = 120 := by decide
      have e2 : digitsToNat ['5'] = 5 := by decide
      rw [e1, e2]
      push_cast
      norm_num
    rw [h1, h3, roundHalfEven_241_half]
  exact ⟨hval, by rw [hval]; decide⟩

/-- C4 amended: the density classifier maps raw text matching the
pattern of digits, an optional comma-decimal part and the unit HU to
the integer obtained by rounding the denoted value to the nearest
integer with ties to the even neighbour (Python round), so "120,5 HU"
decodes to 120 and "120 HU" to 120; raw "-" or "" decodes to null (not
an error); any other present text decodes to INVALID_VALUE. -/
theorem density_classification (report : String) :
    (get_field_value report "CT-Dichte Truncus pulmonalis (Standard)" = some "" →
      (extract_density_tr_pulmonalis report).2 = Ev.null)
    ∧ (get_field_value report "CT-Dichte Truncus pulmonalis (Standard)" = some "-" →
      (extract_density_tr_pulmonalis report).2 = Ev.null)
    ∧ (∀ s, get_field_value report "CT-Dichte Truncus pulmonalis (Standard)" = some s →
        matchesDensityPat s.data = true →
        (extract_density_tr_pulmonalis report).2
          = Ev.val (roundHalfEven (parseCommaRat ((pySplit ' ' s.data).headD []))))
    ∧ (∀ s, get_field_value report "CT-Dichte Truncus pulmonalis (Standard)" = some s →
        s ≠ "" → s ≠ "-" → matchesDensityPat s.data = false →
        (extract_density_tr_pulmonalis report).2 = Ev.err .INVALID_VALUE)
    ∧ (get_field_value report "CT-Dichte Truncus pulmonalis (Standard)" = some "120 HU" →
        (extract_density_tr_pulmonalis report).2 = Ev.val 120) := by
  refine ⟨fun h => ?_, fun h => ?_, fun s hget hm => ?_, fun s hget h1 h2 hm => ?_,
    fun h => ?_⟩
  · unfold extract_density_tr_pulmonalis
    rw [extractField_some _ _ _ _ h]
    rfl
  · unfold extract_density_tr_pulmonalis
    rw [extractField_some _ _ _ _ h]
    rfl
  · unfold extract_density_tr_pulmonalis
    rw [extractField_some _ _ _ _ hget]
    show classify_density s = _
    have hne1 : s ≠ "" := by
      intro e
      rw [e] at hm
      exact absurd hm (by decide)
    have hne2 : s ≠ "-" := by
      intro e
      rw [e] at hm
      exact absurd hm (by decide)
    unfold classify_density
    rw [if_neg (by simp [hne1, hne2]), if_pos hm]
  · unfold extract_density_tr_pulmonalis
    rw [extractField_some _ _ _ _ hget]
    show classify_density s = _
    unfold classify_density
    rw [if_neg (by simp [h1, h2]), if_neg (by simp [hm])]
  · unfold extract_density_tr_pulmonalis
    rw [extractField_some _ _ _ _ h]
    show classify_density "120 HU" = Ev.val 120
    unfold classify_density
    rw [if_neg (by decide), if_pos (by decide)]
    have h1 : (pySplit ' ' "120 HU".data).headD [] = ['1', '2', '0'] := by decide
    rw [h1, parseCommaRat_no_comma _ (by decide)]
    have h2 : digitsToNat ['1', '2', '0'] = 120 := by decide
    rw [h2]
    have h3 : ((120 : ℕ) : ℚ) = ((120 : ℤ) : ℚ) := by push_cast; rfl
    rw [h3, roundHalfEven_of_intCast]

/-- Witness for C4 at a concrete report line with value "120 HU". -/
theorem density_classification_w :
    (extract_density_tr_pulmonalis
        "CT-Dichte Truncus pulmonalis (Standard): 120 HU").2 = Ev.val 120 :=
  (density_classification "CT-Dichte Truncus pulmonalis (Standard): 120 HU").2.2.2.2
    (by decide)

/-- C5: the reported clot-burden-score classifier yields MISSING_FIELD
exactly when the label is absent (never when it is present, so empty
and "-" values are not relaxed but invalid); a present value is decoded
to its number exactly when it matches the number pattern and lies in
the closed interval from 0 to 40, and is INVALID_VALUE otherwise; raw
"41" is INVALID_VALUE, raw "40" decodes to 40. -/
theorem clot_burden_reported_classification (report : String) :
    (get_field_value report "Heidelberg Clot Burden Score (CBS, PMID: 34581626)" = none →
      (extract_clot_burden_score report).2 = Ev.err .MISSING_FIELD)
    ∧ (∀ s, get_field_value report "Heidelberg Clot Burden Score (CBS, PMID: 34581626)"
          = some s →
        (extract_clot_burden_score report).2 ≠ Ev.err .MISSING_FIELD)
    ∧ (∀ s, get_field_value report "Heidelberg Clot Burden Score (CBS, PMID: 34581626)"
          = some s →
        matchesNumTok s.data = true → 0 ≤ parseCommaRat s.data → parseCommaRat s.data ≤ 40 →
        (extract_clot_burden_score report).2 = Ev.val (parseCommaRat s.data))
    ∧ (∀ s, get_field_value report "Heidelberg Clot Burden Score (CBS, PMID: 34581626)"
          = some s →
        (matchesNumTok s.data = false
          ∨ ¬(0 ≤ parseCommaRat s.data ∧ parseCommaRat s.data ≤ 40)) →
        (extract_clot_burden_score report).2 = Ev.err .INVALID_VALUE)
    ∧ (get_field_value report "Heidelberg Clot Burden Score (CBS, PMID: 34581626)"
          = some "41" →
        (extract_clot_burden_score report).2 = Ev.err .INVALID_VALUE)
    ∧ (get_field_value report "Heidelberg Clot Burden Score (CBS, PMID: 34581626)"
          = some "40" →
        (extract_clot_burden_score report).2 = Ev.val 40) := by
  have hval : ∀ s, get_field_value report
        "Heidelberg Clot Burden Score (CBS, PMID: 34581626)" = some s →
      matchesNumTok s.data = true → 0 ≤ parseCommaRat s.data → parseCommaRat s.data ≤ 40 →
      (extract_clot_burden_score report).2 = Ev.val (parseCommaRat s.data) := by
    intro s hget hm hb1 hb2
    unfold extract_clot_burden_score
    rw [extractField_some _ _ _ _ hget]
    show classify_clot_burden_score s = _
    unfold classify_clot_burden_score
    rw [if_neg ]
    push_neg
    exact ⟨by simp [hm], hb1, hb2⟩
  have hinv : ∀ s, get_field_value report
        "Heidelberg Clot Burden Score (CBS, PMID: 34581626)" = some s →
      (matchesNumTok s.data = false
        ∨ ¬(0 ≤ parseCommaRat s.data ∧ parseCommaRat s.data ≤ 40)) →
      (extract_clot_burden_score report).2 = Ev.err .INVALID_VALUE := by
    intro s hget hcond
    unfold extract_clot_burden_score
    rw [extractField_some _ _ _ _ hget]
    show classify_clot_burden_score s = _
    unfold classify_clot_burden_score
    rw [if_pos hcond]
  have h40 : parseCommaRat "40".data = (40 : ℚ) := by
    rw [parseCommaRat_no_comma _ (by decide)]
    have e : digitsToNat "40".data = 40 := by decide
    rw [e]
    push_cast
    norm_num
  refine ⟨fun h => ?_, fun s hget => ?_, hval, hinv, fun h => ?_, fun h => ?_⟩
  · unfold extract_clot_burden_score
    rw [extractField_none _ _ _ h]
  · unfold extract_clot_burden_score
    rw [extractField_some _ _ _ _ hget]
    show classify_clot_burden_score s ≠ _
    unfold classify_clot_burden_score
    split
    · simp
    · simp
  · refine hinv "41" h (Or.inr ?_)
    rw [parseCommaRat_no_comma _ (by decide)]
    have e : digitsToNat "41".data = 41 := by decide
    rw [e]
    push_neg
    intro
    push_cast
    norm_num
  · have := hval "40" h (by decide) (by rw [h40]; norm_num) (by rw [h40])
    rw [h40] at this
    exact this

/-- Witness for C5 at concrete report lines with values "41" and "40". -/
theorem clot_burden_reported_classification_w :
    (extract_clot_burden_score
        "Heidelberg Clot Burden Score (CBS, PMID: 34581626): 41").2
      = Ev.err .INVALID_VALUE
    ∧ (extract_clot_burden_score
        "Heidelberg Clot Burden Score (CBS, PMID: 34581626): 40").2
      = Ev.val 40 :=
  ⟨(clot_burden_reported_classification
      "Heidelberg Clot Burden Score (CBS, PMID: 34581626): 41").2.2.2.2.1 (by decide),
   (clot_burden_reported_classification
      "Heidelberg Clot Burden Score (CBS, PMID: 34581626): 40").2.2.2.2.2 (by decide)⟩

/-- C9: the perfusion-deficit classifier maps both "≥25%" and "=25%" to
GE_25, "<25%" to LT_25, "Keine" to NONE, "" and "-" to null, and any
other present text to INVALID_VALUE. -/
theorem perfusion_deficit_classification (report : String) :
    (get_field_value report "Perfusionsausfälle (DE-CT)" = some "≥25%" →
      (extract_perfusion_deficit report).2 = Ev.val PerfusionDeficit.GE_25)
    ∧ (get_field_value report "Perfusionsausfälle (DE-CT)" = some "=25%" →
      (extract_perfusion_deficit report).2 = Ev.val PerfusionDeficit.GE_25)
    ∧ (get_field_value report "Perfusionsausfälle (DE-CT)" = some "<25%" →
      (extract_perfusion_deficit report).2 = Ev.val PerfusionDeficit.LT_25)
    ∧ (get_field_value report "Perfusionsausfälle (DE-CT)" = some "Keine" →
      (extract_perfusion_deficit report).2 = Ev.val PerfusionDeficit.NONE)
    ∧ (get_field_value report "Perfusionsausfälle (DE-CT)" = some "" →
      (extract_perfusion_deficit report).2 = Ev.null)
    ∧ (get_field_value report "Perfusionsausfälle (DE-CT)" = some "-" →
      (extract_perfusion_deficit report).2 = Ev.null)
    ∧ (∀ s, get_field_value report "Perfusionsausfälle (DE-CT)" = some s →
        s ∉ (["≥25%", "=25%", "<25%", "Keine", "", "-"] : List String) →
        (extract_perfusion_deficit report).2 = Ev.err .INVALID_VALUE) := by
  have base : ∀ s, get_field_value report "Perfusionsausfälle (DE-CT)" = some s →
      (extract_perfusion_deficit report).2 = classify_perfusion_deficit s := by
    intro s hget
    unfold extract_perfusion_deficit
    rw [extractField_some _ _ _ _ hget]
  refine ⟨fun h => ?_, fun h => ?_, fun h => ?_, fun h => ?_, fun h => ?_, fun h => ?_,
    fun s hget hs => ?_⟩
  · rw [base _ h]
    rfl
  · rw [base _ h]
    rfl
  · rw [base _ h]
    rfl
  · rw [base _ h]
    rfl
  · rw [base _ h]
    rfl
  · rw [base _ h]
    rfl
  · rw [base _ hget]
    simp only [List.mem_cons, List.mem_singleton, not_or] at hs
    obtain ⟨n1, n2, n3, n4, n5, n6⟩ := hs
    unfold classify_perfusion_deficit
    rw [if_neg (by simp [n5, n6]), if_neg n4, if_neg n3, if_neg (by simp [n1, n2])]

/-- Witness for C9 at concrete report lines with values "≥25%" and
"=25%". -/
theorem perfusion_deficit_classification_w :
    (extract_perfusion_deficit "Perfusionsausfälle (DE-CT): ≥25%").2
        = Ev.val PerfusionDeficit.GE_25
    ∧ (extract_perfusion_deficit "Perfusionsausfälle (DE-CT): =25%").2
        = Ev.val PerfusionDeficit.GE_25 :=
  ⟨(perfusion_deficit_classification "Perfusionsausfälle (DE-CT): ≥25%").1 (by decide),
   (perfusion_deficit_classification "Perfusionsausfälle (DE-CT): =25%").2.1 (by decide)⟩

end LlmLae
